import Mathlib

/-!
Verification of the dual-mode WebSocket SSL client
(src/websocket_client_sync_ssl.cpp).

Shallow embedding.  The network, TLS and WebSocket libraries are modelled
as an oracle (`World`) that fixes the outcome of every I/O call a single
pipeline run makes; a run is then a pure function from the oracle to the
list of observable events it produces (library calls made and console
lines printed).  Exceptions thrown by the body are modelled as an
`Option String` (the `what()` message) threaded out of `run_body`; the
`try ... catch` wrapper of each pipeline is `run_pipeline`, which turns
an escaped exception into the single reported console line.

The two C++ pipeline functions `sync_test` and `async_test` are, apart
from the `co_await` keywords, the console tag and the executor plumbing,
textually identical; both are therefore embedded as one body
instantiated with the variant's tag and user-agent string.
-/

namespace WebSocketClient

/-- Error kind recorded in the `error_code` that the WebSocket upgrade
call `ws.handshake(response, host, path, ec)` hands back: the code may
record a transport-level failure or a protocol-level rejection by the
server.  The source reads only `ec.message()` from it, never the kind. -/
inductive WSErrKind where
  | transport (msg : String)
  | declined (msg : String)
  deriving DecidableEq

/-- Message carried by an upgrade error code, as `ec.message()` returns it. -/
def WSErrKind.message : WSErrKind → String
  | .transport m => m
  | .declined m => m

/-- Outcome of the WebSocket upgrade call: the error code (`none` when the
upgrade was accepted) and the raw HTTP response captured into `response`. -/
structure WSOutcome where
  ec : Option WSErrKind
  response : String
  deriving DecidableEq

/-- Oracle fixing the outcome of every I/O call made by one pipeline run.
`resolveResult` is the outcome of `resolver.resolve(host, port)` (the
resolved endpoint list itself is consumed only by `net::connect`, which
`connectResult` models, returning the port of the endpoint actually
connected to).  `sniOk` is the boolean outcome of
`SSL_set_tlsext_host_name`.  `readResult` gives the complete message the
framing layer reassembles, as a function of the message the client wrote
(so an echo server is the function sending every message to itself). -/
structure World where
  resolveResult : Except String Unit
  connectResult : Except String Nat
  sniOk : Bool
  tlsResult : Except String Unit
  wsOutcome : WSOutcome
  writeResult : Except String Unit
  readResult : String → Except String String
  closeResult : Except String Unit

/-- Observable events of one pipeline run: each library call that
completed far enough to be observable, and each console line.  A console
line records the tag (first argument of `console::println` at every call
site) and the remaining arguments. -/
inductive Event where
  | resolve (host port : String)
  | connect (epPort : Nat)
  | setSNI (serverName : String)
  | tlsHandshake
  | wsHandshake (hostHeader target userAgent : String)
  | println (tag : String) (args : List String)
  | write (payload : String)
  | read (message : String)
  | close (code : Nat)
  deriving DecidableEq

/-- The Beast library's `BOOST_BEAST_VERSION_STRING` macro; its exact
value is fixed by the library, not by this repository, so it is modelled
as an abstract constant.  No claim depends on its value. -/
def BOOST_BEAST_VERSION_STRING : String := "Boost.Beast/353"

/-- Numeric value of `websocket::close_code::normal`. -/
def normalCloseCode : Nat := 1000

/-- Message of the `beast::system_error` thrown when
`SSL_set_tlsext_host_name` fails. -/
def sniFailureMessage : String := "Failed to set SNI Hostname"

/-- Value of `ec.message()`: the default success message when the error
code is clear, otherwise the recorded message. -/
def ecMessage : Option WSErrKind → String
  | none => "Success"
  | some e => e.message

/-- The `try` body shared by `sync_test` and `async_test`: resolve,
connect, set SNI (with the original `host`), append `':' + port` to the
host string, TLS handshake, set the User-Agent decorator, WebSocket
handshake reporting `ec.message()` and the raw response, early return if
`ec` is set, then write, read, close and print the received message.
Returns the event trace together with the escaped exception message, if
any. -/
def run_body (w : World) (host port path text userAgent tag : String) :
    List Event × Option String :=
  match w.resolveResult with
  | .error e => ([.resolve host port], some e)
  | .ok _ =>
  match w.connectResult with
  | .error e => ([.resolve host port], some e)
  | .ok epPort =>
  if w.sniOk = false then
    ([.resolve host port, .connect epPort, .setSNI host], some sniFailureMessage)
  else
    -- host += ':' + std::to_string(ep.port())
    let hostHeader := host ++ ":" ++ toString epPort
    match w.tlsResult with
    | .error e => ([.resolve host port, .connect epPort, .setSNI host], some e)
    | .ok _ =>
      let t4 : List Event :=
        [.resolve host port, .connect epPort, .setSNI host, .tlsHandshake,
         .wsHandshake hostHeader path userAgent,
         .println tag [ecMessage w.wsOutcome.ec],
         .println tag [w.wsOutcome.response]]
      match w.wsOutcome.ec with
      | some _ => (t4, none)
      | none =>
        match w.writeResult with
        | .error e => (t4 ++ [.write text], some e)
        | .ok _ =>
          match w.readResult text with
          | .error e => (t4 ++ [.write text], some e)
          | .ok msg =>
            match w.closeResult with
            | .error e =>
                (t4 ++ [.write text, .read msg, .close normalCloseCode], some e)
            | .ok _ =>
                (t4 ++ [.write text, .read msg, .close normalCloseCode,
                        .println tag [msg]], none)

/-- One pipeline run with its top-level `catch (std::exception& e)`
boundary: an exception escaping the body is converted into the single
console line `println(tag, "Error: ", e.what())`. -/
def run_pipeline (w : World) (host port path text userAgent tag : String) :
    List Event :=
  match run_body w host port path text userAgent tag with
  | (t, none) => t
  | (t, some e) => t ++ [.println tag ["Error: ", e]]

/-- User-Agent string set by the decorator in `sync_test`. -/
def sync_userAgent : String := BOOST_BEAST_VERSION_STRING ++ " websocket-client-coro"

/-- User-Agent string set by the decorator in `async_test`. -/
def async_userAgent : String := BOOST_BEAST_VERSION_STRING ++ " websocket-client-coro"

/-- Console tag used by every `console::println` call of `sync_test`. -/
def sync_tag : String := "[sync] "

/-- Console tag used by every `console::println` call of `async_test`. -/
def async_tag : String := "[async] "

/-- The blocking pipeline variant. -/
def sync_test (w : World) (host port path text : String) : List Event :=
  run_pipeline w host port path text sync_userAgent sync_tag

/-- The cooperative (coroutine) pipeline variant. -/
def async_test (w : World) (host port path text : String) : List Event :=
  run_pipeline w host port path text async_userAgent async_tag

/-- Numeric value of `EXIT_FAILURE` on this platform. -/
def EXIT_FAILURE : Nat := 1

/-- Numeric value of `EXIT_SUCCESS`. -/
def EXIT_SUCCESS : Nat := 0

/-- Fixed upgrade target path passed to both pipeline variants. -/
def upgradePath : String := "/401"

/-- Observable result of one `main` invocation: the exit status, whether
the usage message was printed on the error stream, and the event traces
of the two pipeline runs (empty when a pipeline was never started). -/
structure MainResult where
  exitCode : Nat
  usagePrinted : Bool
  syncTrace : List Event
  asyncTrace : List Event
  deriving DecidableEq

/-- The program's `main`: with `argc != 4` it prints the usage message and
returns `EXIT_FAILURE` before any I/O object is created; otherwise it
loads the trust store, launches `sync_test` on a dedicated worker and
spawns `async_test` on the event loop, runs the loop, joins the worker
and returns `EXIT_SUCCESS`.  `argv` is the full argument vector including
the program name; the two pipelines run against independent oracles. -/
def main_run (wsync wasync : World) (argv : List String) : MainResult :=
  if argv.length = 4 then
    { exitCode := EXIT_SUCCESS
      usagePrinted := false
      syncTrace := sync_test wsync (argv.getD 1 "") (argv.getD 2 "") upgradePath (argv.getD 3 "")
      asyncTrace := async_test wasync (argv.getD 1 "") (argv.getD 2 "") upgradePath (argv.getD 3 "") }
  else
    { exitCode := EXIT_FAILURE
      usagePrinted := true
      syncTrace := []
      asyncTrace := [] }

/-- Event test: a console line is the top-level catch handler's report
exactly when it carries two value arguments after the tag; every other
`console::println` call site in the source passes exactly one value
argument. -/
def isCatchLine : Event → Bool
  | .println _ (_ :: _ :: _) => true
  | _ => false

/-- Event test for close-handshake initiation. -/
def isCloseEvent : Event → Bool
  | .close _ => true
  | _ => false

/-- Events common to every run that reaches the WebSocket upgrade call:
the four preceding library calls, the upgrade call itself, and the two
console lines reporting `ec.message()` and the raw response. -/
def reachTrace (host port path ua tag : String) (p : Nat)
    (ecMsg response : String) : List Event :=
  [.resolve host port, .connect p, .setSNI host, .tlsHandshake,
   .wsHandshake (host ++ ":" ++ toString p) path ua,
   .println tag [ecMsg], .println tag [response]]

section BranchLemmas

variable (w : World) (host port path text ua tag : String)

theorem run_resolve_error (e : String) (h : w.resolveResult = .error e) :
    run_pipeline w host port path text ua tag =
      [.resolve host port, .println tag ["Error: ", e]] := by
  unfold run_pipeline run_body
  rw [h]
  rfl

theorem run_connect_error (u : Unit) (e : String)
    (h1 : w.resolveResult = .ok u) (h2 : w.connectResult = .error e) :
    run_pipeline w host port path text ua tag =
      [.resolve host port, .println tag ["Error: ", e]] := by
  unfold run_pipeline run_body
  rw [h1, h2]
  rfl

theorem run_sni_failure (u : Unit) (p : Nat)
    (h1 : w.resolveResult = .ok u) (h2 : w.connectResult = .ok p)
    (h3 : w.sniOk = false) :
    run_pipeline w host port path text ua tag =
      [.resolve host port, .connect p, .setSNI host,
       .println tag ["Error: ", sniFailureMessage]] := by
  unfold run_pipeline run_body
  rw [h1, h2, h3]
  simp

theorem run_tls_error (u : Unit) (p : Nat) (e : String)
    (h1 : w.resolveResult = .ok u) (h2 : w.connectResult = .ok p)
    (h3 : w.sniOk = true) (h4 : w.tlsResult = .error e) :
    run_pipeline w host port path text ua tag =
      [.resolve host port, .connect p, .setSNI host,
       .println tag ["Error: ", e]] := by
  unfold run_pipeline run_body
  rw [h1, h2, h3, h4]
  simp

theorem run_upgrade_rejected (u u2 : Unit) (p : Nat) (k : WSErrKind)
    (h1 : w.resolveResult = .ok u) (h2 : w.connectResult = .ok p)
    (h3 : w.sniOk = true) (h4 : w.tlsResult = .ok u2)
    (h5 : w.wsOutcome.ec = some k) :
    run_pipeline w host port path text ua tag =
      reachTrace host port path ua tag p k.message w.wsOutcome.response := by
  unfold run_pipeline run_body reachTrace
  rw [h1, h2, h3, h4, h5]
  simp [ecMessage]

theorem run_write_error (u u2 : Unit) (p : Nat) (e : String)
    (h1 : w.resolveResult = .ok u) (h2 : w.connectResult = .ok p)
    (h3 : w.sniOk = true) (h4 : w.tlsResult = .ok u2)
    (h5 : w.wsOutcome.ec = none) (h6 : w.writeResult = .error e) :
    run_pipeline w host port path text ua tag =
      reachTrace host port path ua tag p "Success" w.wsOutcome.response ++
        [.write text, .println tag ["Error: ", e]] := by
  unfold run_pipeline run_body reachTrace
  rw [h1, h2, h3, h4, h5, h6]
  simp [ecMessage]

theorem run_read_error (u u2 u3 : Unit) (p : Nat) (e : String)
    (h1 : w.resolveResult = .ok u) (h2 : w.connectResult = .ok p)
    (h3 : w.sniOk = true) (h4 : w.tlsResult = .ok u2)
    (h5 : w.wsOutcome.ec = none) (h6 : w.writeResult = .ok u3)
    (h7 : w.readResult text = .error e) :
    run_pipeline w host port path text ua tag =
      reachTrace host port path ua tag p "Success" w.wsOutcome.response ++
        [.write text, .println tag ["Error: ", e]] := by
  unfold run_pipeline run_body reachTrace
  rw [h1, h2, h3, h4, h5, h6, h7]
  simp [ecMessage]

theorem run_close_error (u u2 u3 : Unit) (p : Nat) (msg e : String)
    (h1 : w.resolveResult = .ok u) (h2 : w.connectResult = .ok p)
    (h3 : w.sniOk = true) (h4 : w.tlsResult = .ok u2)
    (h5 : w.wsOutcome.ec = none) (h6 : w.writeResult = .ok u3)
    (h7 : w.readResult text = .ok msg) (h8 : w.closeResult = .error e) :
    run_pipeline w host port path text ua tag =
      reachTrace host port path ua tag p "Success" w.wsOutcome.response ++
        [.write text, .read msg, .close normalCloseCode,
         .println tag ["Error: ", e]] := by
  unfold run_pipeline run_body reachTrace
  rw [h1, h2, h3, h4, h5, h6, h7, h8]
  simp [ecMessage]

theorem run_success (u u2 u3 u4 : Unit) (p : Nat) (msg : String)
    (h1 : w.resolveResult = .ok u) (h2 : w.connectResult = .ok p)
    (h3 : w.sniOk = true) (h4 : w.tlsResult = .ok u2)
    (h5 : w.wsOutcome.ec = none) (h6 : w.writeResult = .ok u3)
    (h7 : w.readResult text = .ok msg) (h8 : w.closeResult = .ok u4) :
    run_pipeline w host port path text ua tag =
      reachTrace host port path ua tag p "Success" w.wsOutcome.response ++
        [.write text, .read msg, .close normalCloseCode,
         .println tag [msg]] := by
  unfold run_pipeline run_body reachTrace
  rw [h1, h2, h3, h4, h5, h6, h7, h8]
  simp [ecMessage]

end BranchLemmas

/-- Case analysis of one pipeline run: every run follows one of six exit
paths — resolve/connect failure, SNI/TLS failure, rejected upgrade,
write/read failure, close failure, or full success — and produces the
stated trace on that path. -/
theorem run_pipeline_shape (w : World) (host port path text ua tag : String) :
    (∃ e, run_pipeline w host port path text ua tag =
       [.resolve host port, .println tag ["Error: ", e]]) ∨
    (∃ p e, w.connectResult = .ok p ∧
       run_pipeline w host port path text ua tag =
         [.resolve host port, .connect p, .setSNI host,
          .println tag ["Error: ", e]]) ∨
    (∃ p k, w.connectResult = .ok p ∧ w.wsOutcome.ec = some k ∧
       run_pipeline w host port path text ua tag =
         reachTrace host port path ua tag p k.message w.wsOutcome.response) ∨
    (∃ p e, w.connectResult = .ok p ∧ w.wsOutcome.ec = none ∧
       run_pipeline w host port path text ua tag =
         reachTrace host port path ua tag p "Success" w.wsOutcome.response ++
           [.write text, .println tag ["Error: ", e]]) ∨
    (∃ p msg e, w.connectResult = .ok p ∧ w.wsOutcome.ec = none ∧
       w.writeResult = .ok () ∧ w.readResult text = .ok msg ∧
       run_pipeline w host port path text ua tag =
         reachTrace host port path ua tag p "Success" w.wsOutcome.response ++
           [.write text, .read msg, .close normalCloseCode,
            .println tag ["Error: ", e]]) ∨
    (∃ p msg, w.connectResult = .ok p ∧ w.wsOutcome.ec = none ∧
       w.writeResult = .ok () ∧ w.readResult text = .ok msg ∧
       run_pipeline w host port path text ua tag =
         reachTrace host port path ua tag p "Success" w.wsOutcome.response ++
           [.write text, .read msg, .close normalCloseCode,
            .println tag [msg]]) := by
  cases hr : w.resolveResult with
  | error e => exact Or.inl ⟨e, run_resolve_error w host port path text ua tag e hr⟩
  | ok u1 =>
  cases hc : w.connectResult with
  | error e => exact Or.inl ⟨e, run_connect_error w host port path text ua tag u1 e hr hc⟩
  | ok p =>
  cases hs : w.sniOk with
  | false =>
      exact Or.inr (Or.inl ⟨p, sniFailureMessage, rfl,
        run_sni_failure w host port path text ua tag u1 p hr hc hs⟩)
  | true =>
  cases ht : w.tlsResult with
  | error e =>
      exact Or.inr (Or.inl ⟨p, e, rfl,
        run_tls_error w host port path text ua tag u1 p e hr hc hs ht⟩)
  | ok u2 =>
  cases he : w.wsOutcome.ec with
  | some k =>
      exact Or.inr (Or.inr (Or.inl ⟨p, k, rfl, rfl,
        run_upgrade_rejected w host port path text ua tag u1 u2 p k hr hc hs ht he⟩))
  | none =>
  cases hw : w.writeResult with
  | error e =>
      exact Or.inr (Or.inr (Or.inr (Or.inl ⟨p, e, rfl, rfl,
        run_write_error w host port path text ua tag u1 u2 p e hr hc hs ht he hw⟩)))
  | ok u3 =>
  cases hrd : w.readResult text with
  | error e =>
      exact Or.inr (Or.inr (Or.inr (Or.inl ⟨p, e, rfl, rfl,
        run_read_error w host port path text ua tag u1 u2 u3 p e hr hc hs ht he hw hrd⟩)))
  | ok msg =>
  cases hcl : w.closeResult with
  | error e =>
      cases u3
      exact Or.inr (Or.inr (Or.inr (Or.inr (Or.inl ⟨p, msg, e, rfl, rfl, rfl, rfl,
        run_close_error w host port path text ua tag u1 u2 () p msg e hr hc hs ht he hw hrd hcl⟩))))
  | ok u4 =>
      cases u3
      exact Or.inr (Or.inr (Or.inr (Or.inr (Or.inr ⟨p, msg, rfl, rfl, rfl, rfl,
        run_success w host port path text ua tag u1 u2 () u4 p msg hr hc hs ht he hw hrd hcl⟩))))

/-- Every WebSocket upgrade call a run makes carries the host header
`host ++ ":" ++ port actually connected to`, the given path and the given
user agent. -/
theorem wsHandshake_mem (w : World) (host port path text ua tag hh pa u : String)
    (hm : Event.wsHandshake hh pa u ∈ run_pipeline w host port path text ua tag) :
    ∃ p, w.connectResult = .ok p ∧ hh = host ++ ":" ++ toString p ∧
      pa = path ∧ u = ua := by
  rcases run_pipeline_shape w host port path text ua tag with
    ⟨e, htr⟩ | ⟨p, e, hc, htr⟩ | ⟨p, k, hc, he, htr⟩ | ⟨p, e, hc, he, htr⟩ |
    ⟨p, msg, e, hc, he, hw, hrd, htr⟩ | ⟨p, msg, hc, he, hw, hrd, htr⟩
  · rw [htr] at hm; simp at hm
  · rw [htr] at hm; simp at hm
  · rw [htr] at hm; simp [reachTrace] at hm
    exact ⟨p, hc, hm.1, hm.2.1, hm.2.2⟩
  · rw [htr] at hm; simp [reachTrace] at hm
    exact ⟨p, hc, hm.1, hm.2.1, hm.2.2⟩
  · rw [htr] at hm; simp [reachTrace] at hm
    exact ⟨p, hc, hm.1, hm.2.1, hm.2.2⟩
  · rw [htr] at hm; simp [reachTrace] at hm
    exact ⟨p, hc, hm.1, hm.2.1, hm.2.2⟩

/-- Every SNI call a run makes carries exactly the original host string. -/
theorem setSNI_mem (w : World) (host port path text ua tag s : String)
    (hm : Event.setSNI s ∈ run_pipeline w host port path text ua tag) :
    s = host := by
  rcases run_pipeline_shape w host port path text ua tag with
    ⟨e, htr⟩ | ⟨p, e, hc, htr⟩ | ⟨p, k, hc, he, htr⟩ | ⟨p, e, hc, he, htr⟩ |
    ⟨p, msg, e, hc, he, hw, hrd, htr⟩ | ⟨p, msg, hc, he, hw, hrd, htr⟩ <;>
    rw [htr] at hm <;> simp [reachTrace] at hm <;> exact hm

/-- Decomposition of a reach-trace at the TLS handshake event. -/
theorem decomp_at_tls {tr rest : List Event} {host port path ua tag : String}
    {p : Nat} {m r : String}
    (h : tr = reachTrace host port path ua tag p m r ++ rest) :
    tr = [.resolve host port, .connect p, .setSNI host] ++
      Event.tlsHandshake ::
        ([.wsHandshake (host ++ ":" ++ toString p) path ua,
          .println tag [m], .println tag [r]] ++ rest) := by
  subst h
  simp [reachTrace]

/-- Decomposition of a reach-trace at the WebSocket upgrade event. -/
theorem decomp_at_ws {tr rest : List Event} {host port path ua tag : String}
    {p : Nat} {m r : String}
    (h : tr = reachTrace host port path ua tag p m r ++ rest) :
    tr = [.resolve host port, .connect p, .setSNI host, .tlsHandshake] ++
      Event.wsHandshake (host ++ ":" ++ toString p) path ua ::
        ([.println tag [m], .println tag [r]] ++ rest) := by
  subst h
  simp [reachTrace]

/-- A TLS handshake event precedes every WebSocket upgrade event of a
run. -/
theorem tls_before_ws (w : World) (host port path text ua tag hh pa u : String)
    (hm : Event.wsHandshake hh pa u ∈ run_pipeline w host port path text ua tag) :
    ∃ l1 l2, run_pipeline w host port path text ua tag =
      l1 ++ Event.tlsHandshake :: l2 ∧ Event.wsHandshake hh pa u ∈ l2 := by
  rcases run_pipeline_shape w host port path text ua tag with
    ⟨e, htr⟩ | ⟨p, e, hc, htr⟩ | ⟨p, k, hc, he, htr⟩ | ⟨p, e, hc, he, htr⟩ |
    ⟨p, msg, e, hc, he, hw, hrd, htr⟩ | ⟨p, msg, hc, he, hw, hrd, htr⟩ <;>
    [skip; skip;
     exact ⟨_, _, decomp_at_tls (by simpa using htr),
       by have h2 := hm; rw [htr] at h2; simp [reachTrace] at h2
          obtain ⟨rfl, rfl, rfl⟩ := h2; simp⟩;
     exact ⟨_, _, decomp_at_tls htr,
       by have h2 := hm; rw [htr] at h2; simp [reachTrace] at h2
          obtain ⟨rfl, rfl, rfl⟩ := h2; simp⟩;
     exact ⟨_, _, decomp_at_tls htr,
       by have h2 := hm; rw [htr] at h2; simp [reachTrace] at h2
          obtain ⟨rfl, rfl, rfl⟩ := h2; simp⟩;
     exact ⟨_, _, decomp_at_tls htr,
       by have h2 := hm; rw [htr] at h2; simp [reachTrace] at h2
          obtain ⟨rfl, rfl, rfl⟩ := h2; simp⟩] <;>
    rw [htr] at hm <;> simp [reachTrace] at hm

/-- Every application-message write of a run happens after the WebSocket
upgrade succeeded (`ec` clear), after the upgrade event, and carries the
payload text. -/
theorem write_mem (w : World) (host port path text ua tag t : String)
    (hm : Event.write t ∈ run_pipeline w host port path text ua tag) :
    w.wsOutcome.ec = none ∧ t = text ∧
      ∃ p l1 l2, w.connectResult = .ok p ∧
        run_pipeline w host port path text ua tag =
          l1 ++ Event.wsHandshake (host ++ ":" ++ toString p) path ua :: l2 ∧
        Event.write t ∈ l2 := by
  rcases run_pipeline_shape w host port path text ua tag with
    ⟨e, htr⟩ | ⟨p, e, hc, htr⟩ | ⟨p, k, hc, he, htr⟩ | ⟨p, e, hc, he, htr⟩ |
    ⟨p, msg, e, hc, he, hw, hrd, htr⟩ | ⟨p, msg, hc, he, hw, hrd, htr⟩ <;>
    [skip; skip; skip;
     exact ⟨he, by have h2 := hm; rw [htr] at h2; simpa [reachTrace] using h2,
       p, _, _, hc, decomp_at_ws htr,
       by have h2 := hm; rw [htr] at h2; simp [reachTrace] at h2
          subst h2; simp⟩;
     exact ⟨he, by have h2 := hm; rw [htr] at h2; simpa [reachTrace] using h2,
       p, _, _, hc, decomp_at_ws htr,
       by have h2 := hm; rw [htr] at h2; simp [reachTrace] at h2
          subst h2; simp⟩;
     exact ⟨he, by have h2 := hm; rw [htr] at h2; simpa [reachTrace] using h2,
       p, _, _, hc, decomp_at_ws htr,
       by have h2 := hm; rw [htr] at h2; simp [reachTrace] at h2
          subst h2; simp⟩] <;>
    rw [htr] at hm <;> simp [reachTrace] at hm

/-- A close handshake is initiated by a run only when the upgrade was
accepted, the write succeeded and a complete message was read, and always
with the normal close code. -/
theorem close_mem (w : World) (host port path text ua tag : String) (c : Nat)
    (hm : Event.close c ∈ run_pipeline w host port path text ua tag) :
    w.wsOutcome.ec = none ∧ w.writeResult = .ok () ∧
      (∃ m, w.readResult text = .ok m) ∧ c = normalCloseCode := by
  rcases run_pipeline_shape w host port path text ua tag with
    ⟨e, htr⟩ | ⟨p, e, hc, htr⟩ | ⟨p, k, hc, he, htr⟩ | ⟨p, e, hc, he, htr⟩ |
    ⟨p, msg, e, hc, he, hw, hrd, htr⟩ | ⟨p, msg, hc, he, hw, hrd, htr⟩ <;>
    rw [htr] at hm <;> simp [reachTrace] at hm
  · exact ⟨he, hw, ⟨msg, hrd⟩, hm⟩
  · exact ⟨he, hw, ⟨msg, hrd⟩, hm⟩

theorem isCatchLine_println1 (t a : String) :
    isCatchLine (.println t [a]) = false := rfl

theorem isCatchLine_println2 (t a b : String) :
    isCatchLine (.println t [a, b]) = true := rfl

/-- At most one catch-handler report line appears in any run's trace. -/
theorem catchLine_count (w : World) (host port path text ua tag : String) :
    (run_pipeline w host port path text ua tag).countP isCatchLine ≤ 1 := by
  rcases run_pipeline_shape w host port path text ua tag with
    ⟨e, htr⟩ | ⟨p, e, hc, htr⟩ | ⟨p, k, hc, he, htr⟩ | ⟨p, e, hc, he, htr⟩ |
    ⟨p, msg, e, hc, he, hw, hrd, htr⟩ | ⟨p, msg, hc, he, hw, hrd, htr⟩ <;>
    rw [htr] <;>
    simp [reachTrace, List.countP_cons, List.countP_append, isCatchLine,
      isCatchLine_println1, isCatchLine_println2]

/-- Every console line of a run carries the run's own tag. -/
theorem println_tag (w : World) (host port path text ua tag : String) :
    ∀ ev ∈ run_pipeline w host port path text ua tag,
      ∀ t as, ev = Event.println t as → t = tag := by
  intro ev hev t as heq
  subst heq
  rcases run_pipeline_shape w host port path text ua tag with
    ⟨e, htr⟩ | ⟨p, e, hc, htr⟩ | ⟨p, k, hc, he, htr⟩ | ⟨p, e, hc, he, htr⟩ |
    ⟨p, msg, e, hc, he, hw, hrd, htr⟩ | ⟨p, msg, hc, he, hw, hrd, htr⟩ <;>
    rw [htr] at hev <;> simp [reachTrace] at hev <;> tauto

/-- Oracle of a fully successful run against an echo server: the
connection lands on port 8443, the upgrade is accepted, and the server
sends back every message verbatim. -/
def okWorld : World where
  resolveResult := .ok ()
  connectResult := .ok 8443
  sniOk := true
  tlsResult := .ok ()
  wsOutcome := { ec := none, response := "HTTP/1.1 101 Switching Protocols" }
  writeResult := .ok ()
  readResult := fun s => .ok s
  closeResult := .ok ()

/-- Oracle of a run whose WebSocket upgrade the server declines with a
non-success response (soft rejection: the error code is set). -/
def rejectWorld : World :=
  { okWorld with
    wsOutcome :=
      { ec := some (.declined "The WebSocket handshake was declined by the remote peer")
        response := "HTTP/1.1 401 Unauthorized" } }

/-- Oracle of a run whose WebSocket upgrade fails at the transport level
(the error code records a transport failure, no response is captured). -/
def transportFailWorld : World :=
  { okWorld with
    wsOutcome := { ec := some (.transport "Connection reset by peer"), response := "" } }

/-- Oracle of a run in which everything succeeds up to and including the
read, and then the close handshake fails. -/
def closeFailWorld : World :=
  { okWorld with closeResult := .error "stream truncated" }

/-- C1: in every invocation of either pipeline variant that reaches the
WebSocket upgrade, the Host header handed to the upgrade handshake equals
the original host string, `:`, and the decimal rendering of the port the
connection actually landed on (taken from the connected endpoint), not
the originally supplied port string. -/
theorem C1_upgrade_host_header (w : World) (host port path text hh pa u : String)
    (hm : Event.wsHandshake hh pa u ∈ sync_test w host port path text ∨
          Event.wsHandshake hh pa u ∈ async_test w host port path text) :
    ∃ p, w.connectResult = .ok p ∧ hh = host ++ ":" ++ toString p := by
  rcases hm with hm | hm
  · obtain ⟨p, hc, h1, -, -⟩ :=
      wsHandshake_mem w host port path text sync_userAgent sync_tag hh pa u hm
    exact ⟨p, hc, h1⟩
  · obtain ⟨p, hc, h1, -, -⟩ :=
      wsHandshake_mem w host port path text async_userAgent async_tag hh pa u hm
    exact ⟨p, hc, h1⟩

/-- Witness for C1: invoked with port string "443" but connected to port
8443, the upgrade's Host header is "example.com:8443". -/
theorem C1_upgrade_host_header_witness :
    ∃ p, okWorld.connectResult = .ok p ∧
      "example.com:8443" = "example.com" ++ ":" ++ toString p :=
  C1_upgrade_host_header okWorld "example.com" "443" "/401" "Hello, world!"
    "example.com:8443" "/401" sync_userAgent (Or.inl (by decide))

/-- C2: the SNI server name handed to the TLS layer is always exactly the
host string as supplied, with no port suffix, in both pipeline
variants. -/
theorem C2_sni_original_host (w : World) (host port path text s : String)
    (hm : Event.setSNI s ∈ sync_test w host port path text ∨
          Event.setSNI s ∈ async_test w host port path text) :
    s = host := by
  rcases hm with hm | hm
  · exact setSNI_mem w host port path text sync_userAgent sync_tag s hm
  · exact setSNI_mem w host port path text async_userAgent async_tag s hm

/-- Witness for C2: with host "example.com" the recorded SNI argument is
"example.com" even though the connection lands on port 8443 and the host
variable is afterwards mutated to "example.com:8443". -/
theorem C2_sni_original_host_witness : "example.com" = "example.com" :=
  C2_sni_original_host okWorld "example.com" "443" "/401" "Hello, world!"
    "example.com" (Or.inl (by decide))

/-- C3: when the upgrade handshake completes with the server rejecting it
(error code set), both variants report the error message and the raw
response to the console and the trace ends there: no exception line, no
write, no read, no close, no received-message report. -/
theorem C3_soft_rejection_reports_and_returns (w : World)
    (host port path text : String) (p : Nat) (k : WSErrKind)
    (h1 : w.resolveResult = .ok ()) (h2 : w.connectResult = .ok p)
    (h3 : w.sniOk = true) (h4 : w.tlsResult = .ok ())
    (h5 : w.wsOutcome.ec = some k) :
    sync_test w host port path text =
      reachTrace host port path sync_userAgent sync_tag p
        k.message w.wsOutcome.response ∧
    async_test w host port path text =
      reachTrace host port path async_userAgent async_tag p
        k.message w.wsOutcome.response :=
  ⟨run_upgrade_rejected w host port path text sync_userAgent sync_tag
     () () p k h1 h2 h3 h4 h5,
   run_upgrade_rejected w host port path text async_userAgent async_tag
     () () p k h1 h2 h3 h4 h5⟩

/-- Witness for C3: a concrete declined upgrade produces exactly the
seven-event report-and-return trace in the blocking variant. -/
theorem C3_soft_rejection_witness :
    sync_test rejectWorld "example.com" "443" "/401" "Hello, world!" =
      reachTrace "example.com" "443" "/401" sync_userAgent sync_tag 8443
        (WSErrKind.declined "The WebSocket handshake was declined by the remote peer").message
        "HTTP/1.1 401 Unauthorized" :=
  (C3_soft_rejection_reports_and_returns rejectWorld "example.com" "443" "/401"
    "Hello, world!" 8443
    (.declined "The WebSocket handshake was declined by the remote peer")
    rfl rfl rfl rfl rfl).1

/-- C4 counterexample: the claim asserts the two pipeline variants attach
different mode-distinguishing User-Agent suffixes; in fact both
decorators build the identical string
`BOOST_BEAST_VERSION_STRING ++ " websocket-client-coro"`, and at a
concrete full-success invocation both variants' upgrade requests carry
that same User-Agent. -/
theorem C4_user_agent_counterexample :
    sync_userAgent = async_userAgent ∧
    Event.wsHandshake "example.com:8443" "/401"
        (BOOST_BEAST_VERSION_STRING ++ " websocket-client-coro") ∈
      sync_test okWorld "example.com" "443" "/401" "Hello, world!" ∧
    Event.wsHandshake "example.com:8443" "/401"
        (BOOST_BEAST_VERSION_STRING ++ " websocket-client-coro") ∈
      async_test okWorld "example.com" "443" "/401" "Hello, world!" :=
  ⟨rfl, by decide, by decide⟩

/-- C4 amended: every upgrade request of either variant carries the fixed
identification header value `BOOST_BEAST_VERSION_STRING` followed by the
fixed suffix " websocket-client-coro"; the suffix is the same for both
execution modes and does not distinguish them. -/
theorem C4_user_agent_amended (w : World) (host port path text hh pa u : String) :
    (Event.wsHandshake hh pa u ∈ sync_test w host port path text →
       u = BOOST_BEAST_VERSION_STRING ++ " websocket-client-coro") ∧
    (Event.wsHandshake hh pa u ∈ async_test w host port path text →
       u = BOOST_BEAST_VERSION_STRING ++ " websocket-client-coro") := by
  constructor
  · intro hm
    obtain ⟨p, -, -, -, h4⟩ :=
      wsHandshake_mem w host port path text sync_userAgent sync_tag hh pa u hm
    exact h4
  · intro hm
    obtain ⟨p, -, -, -, h4⟩ :=
      wsHandshake_mem w host port path text async_userAgent async_tag hh pa u hm
    exact h4

/-- Witness for the amended C4 at a concrete full-success invocation of
the blocking variant. -/
theorem C4_user_agent_amended_witness :
    sync_userAgent = BOOST_BEAST_VERSION_STRING ++ " websocket-client-coro" :=
  (C4_user_agent_amended okWorld "example.com" "443" "/401" "Hello, world!"
    "example.com:8443" "/401" sync_userAgent).1 (by decide)

/-- C5 counterexample: the claim asserts a transport-level failure during
the WebSocket upgrade is surfaced as a thrown error reaching the
top-level catch; in fact the source uses the error-code overload of the
upgrade call, so at a concrete input whose upgrade fails at the transport
level the run takes the same non-exceptional report-and-return path as a
soft rejection: the trace is the seven-event reach trace and contains no
catch-handler line. -/
theorem C5_upgrade_transport_counterexample :
    sync_test transportFailWorld "example.com" "443" "/401" "Hello, world!" =
      reachTrace "example.com" "443" "/401" sync_userAgent sync_tag 8443
        "Connection reset by peer" "" ∧
    (sync_test transportFailWorld "example.com" "443" "/401"
        "Hello, world!").countP isCatchLine = 0 :=
  ⟨rfl, rfl⟩

/-- C5 amended: during the WebSocket upgrade, transport-level failures
and protocol-level rejections are not distinguishable by control path:
both are delivered via the error code, and a run whose upgrade error code
records a transport failure with message `m` produces exactly the same
trace as one recording a protocol rejection with message `m`, in both
variants. -/
theorem C5_upgrade_failures_same_path (w : World)
    (host port path text r m : String) :
    sync_test { w with wsOutcome := { ec := some (.transport m), response := r } }
        host port path text =
      sync_test { w with wsOutcome := { ec := some (.declined m), response := r } }
        host port path text ∧
    async_test { w with wsOutcome := { ec := some (.transport m), response := r } }
        host port path text =
      async_test { w with wsOutcome := { ec := some (.declined m), response := r } }
        host port path text := by
  obtain ⟨r1, c1, s1, t1, o1, w1, rd1, cl1⟩ := w
  refine ⟨?_, ?_⟩ <;>
    cases r1 <;> cases c1 <;> cases s1 <;> cases t1 <;> rfl

/-- C6 counterexample: the claim asserts a close is initiated before the
connection is discarded even on the soft-rejection exit path; in fact a
concrete soft-rejected run completes (discarding the connection) with no
close event at all in its trace. -/
theorem C6_ordering_counterexample :
    sync_test rejectWorld "example.com" "443" "/401" "Hello, world!" =
      reachTrace "example.com" "443" "/401" sync_userAgent sync_tag 8443
        "The WebSocket handshake was declined by the remote peer"
        "HTTP/1.1 401 Unauthorized" ∧
    (sync_test rejectWorld "example.com" "443" "/401"
        "Hello, world!").countP isCloseEvent = 0 :=
  ⟨rfl, rfl⟩

/-- C6 amended: in every run of either variant the TLS handshake
completes before any WebSocket handshake event, an application message is
written only when the upgrade succeeded (error code clear) and after the
upgrade event, and a close is initiated only on the path where both the
write and the read succeeded — on the soft-rejection and error exit paths
the connection is discarded without a close handshake. -/
theorem C6_ordering_amended (w : World)
    (host port path text hh pa u t : String) (c : Nat) :
    ((Event.wsHandshake hh pa u ∈ sync_test w host port path text →
        ∃ l1 l2, sync_test w host port path text =
          l1 ++ Event.tlsHandshake :: l2 ∧ Event.wsHandshake hh pa u ∈ l2) ∧
     (Event.write t ∈ sync_test w host port path text →
        w.wsOutcome.ec = none) ∧
     (Event.close c ∈ sync_test w host port path text →
        w.wsOutcome.ec = none ∧ w.writeResult = .ok () ∧
          ∃ m, w.readResult text = .ok m)) ∧
    ((Event.wsHandshake hh pa u ∈ async_test w host port path text →
        ∃ l1 l2, async_test w host port path text =
          l1 ++ Event.tlsHandshake :: l2 ∧ Event.wsHandshake hh pa u ∈ l2) ∧
     (Event.write t ∈ async_test w host port path text →
        w.wsOutcome.ec = none) ∧
     (Event.close c ∈ async_test w host port path text →
        w.wsOutcome.ec = none ∧ w.writeResult = .ok () ∧
          ∃ m, w.readResult text = .ok m)) := by
  refine ⟨⟨?_, ?_, ?_⟩, ⟨?_, ?_, ?_⟩⟩
  · exact fun hm => tls_before_ws w host port path text sync_userAgent sync_tag hh pa u hm
  · exact fun hm => (write_mem w host port path text sync_userAgent sync_tag t hm).1
  · exact fun hm =>
      ⟨(close_mem w host port path text sync_userAgent sync_tag c hm).1,
       (close_mem w host port path text sync_userAgent sync_tag c hm).2.1,
       (close_mem w host port path text sync_userAgent sync_tag c hm).2.2.1⟩
  · exact fun hm => tls_before_ws w host port path text async_userAgent async_tag hh pa u hm
  · exact fun hm => (write_mem w host port path text async_userAgent async_tag t hm).1
  · exact fun hm =>
      ⟨(close_mem w host port path text async_userAgent async_tag c hm).1,
       (close_mem w host port path text async_userAgent async_tag c hm).2.1,
       (close_mem w host port path text async_userAgent async_tag c hm).2.2.1⟩

/-- Witness for the amended C6: at a concrete full-success run of the
blocking variant, the TLS handshake event precedes the upgrade event. -/
theorem C6_ordering_amended_witness :
    ∃ l1 l2, sync_test okWorld "example.com" "443" "/401" "Hello, world!" =
      l1 ++ Event.tlsHandshake :: l2 ∧
      Event.wsHandshake "example.com:8443" "/401" sync_userAgent ∈ l2 :=
  (C6_ordering_amended okWorld "example.com" "443" "/401" "Hello, world!"
    "example.com:8443" "/401" sync_userAgent "Hello, world!"
    normalCloseCode).1.1 (by decide)

/-- C7: invoked with an argument count other than exactly three user
arguments, the process prints the usage message on the error stream,
exits with the non-zero status `EXIT_FAILURE`, and performs no network
activity — both pipeline traces are empty because neither pipeline is
ever started. -/
theorem C7_usage_on_bad_argc (wsync wasync : World) (argv : List String)
    (h : argv.length ≠ 4) :
    main_run wsync wasync argv =
      { exitCode := EXIT_FAILURE, usagePrinted := true,
        syncTrace := [], asyncTrace := [] } := by
  unfold main_run
  simp [h]

/-- Witness for C7: two user arguments instead of three. -/
theorem C7_usage_on_bad_argc_witness :
    main_run okWorld okWorld ["websocket-client-sync-ssl", "example.com", "443"] =
      { exitCode := EXIT_FAILURE, usagePrinted := true,
        syncTrace := [], asyncTrace := [] } :=
  C7_usage_on_bad_argc okWorld okWorld
    ["websocket-client-sync-ssl", "example.com", "443"] (by decide)

/-- C8: on any well-formed invocation the process exits with
`EXIT_SUCCESS` whatever the two pipelines' oracles did; each variant's
trace contains at most one catch-handler report line, and every console
line of a variant's trace is tagged with that variant's own name. -/
theorem C8_exit_zero_and_error_containment (wsync wasync : World)
    (argv : List String) (h : argv.length = 4) :
    (main_run wsync wasync argv).exitCode = EXIT_SUCCESS ∧
    (main_run wsync wasync argv).syncTrace.countP isCatchLine ≤ 1 ∧
    (main_run wsync wasync argv).asyncTrace.countP isCatchLine ≤ 1 ∧
    (∀ ev ∈ (main_run wsync wasync argv).syncTrace,
       ∀ t as, ev = Event.println t as → t = sync_tag) ∧
    (∀ ev ∈ (main_run wsync wasync argv).asyncTrace,
       ∀ t as, ev = Event.println t as → t = async_tag) := by
  unfold main_run
  simp only [h, if_pos]
  exact ⟨trivial,
    catchLine_count wsync (argv.getD 1 "") (argv.getD 2 "") upgradePath
      (argv.getD 3 "") sync_userAgent sync_tag,
    catchLine_count wasync (argv.getD 1 "") (argv.getD 2 "") upgradePath
      (argv.getD 3 "") async_userAgent async_tag,
    println_tag wsync (argv.getD 1 "") (argv.getD 2 "") upgradePath
      (argv.getD 3 "") sync_userAgent sync_tag,
    println_tag wasync (argv.getD 1 "") (argv.getD 2 "") upgradePath
      (argv.getD 3 "") async_userAgent async_tag⟩

/-- Witness for C8: a well-formed invocation with two oracles, one of
which fails at the close step, still exits with status zero. -/
theorem C8_exit_zero_witness :
    (main_run closeFailWorld okWorld
      ["websocket-client-sync-ssl", "example.com", "443",
       "Hello, world!"]).exitCode = EXIT_SUCCESS :=
  (C8_exit_zero_and_error_containment closeFailWorld okWorld
    ["websocket-client-sync-ssl", "example.com", "443", "Hello, world!"]
    (by decide)).1

/-- C9: against a server that echoes every received message verbatim, a
run of either variant that reaches the message exchange performs one
write of the payload immediately followed by one complete-message read
whose result equals the payload sent. -/
theorem C9_echo_round_trip (w : World) (host port path text : String) (p : Nat)
    (h1 : w.resolveResult = .ok ()) (h2 : w.connectResult = .ok p)
    (h3 : w.sniOk = true) (h4 : w.tlsResult = .ok ())
    (h5 : w.wsOutcome.ec = none) (h6 : w.writeResult = .ok ())
    (hecho : ∀ s, w.readResult s = .ok s) :
    (∃ l1 l2, sync_test w host port path text =
       l1 ++ Event.write text :: Event.read text :: l2) ∧
    (∃ l1 l2, async_test w host port path text =
       l1 ++ Event.write text :: Event.read text :: l2) := by
  have key : ∀ ua tag : String, ∃ l1 l2,
      run_pipeline w host port path text ua tag =
        l1 ++ Event.write text :: Event.read text :: l2 := by
    intro ua tag
    cases hcl : w.closeResult with
    | error e =>
        exact ⟨reachTrace host port path ua tag p "Success" w.wsOutcome.response,
          [.close normalCloseCode, .println tag ["Error: ", e]],
          by rw [run_close_error w host port path text ua tag () () () p text e
                   h1 h2 h3 h4 h5 h6 (hecho text) hcl]⟩
    | ok u4 =>
        exact ⟨reachTrace host port path ua tag p "Success" w.wsOutcome.response,
          [.close normalCloseCode, .println tag [text]],
          by rw [run_success w host port path text ua tag () () () u4 p text
                   h1 h2 h3 h4 h5 h6 (hecho text) hcl]⟩
  exact ⟨key sync_userAgent sync_tag, key async_userAgent async_tag⟩

/-- Witness for C9: exchanging "Hello, world!" with an echo server yields
the received message "Hello, world!" in the blocking variant. -/
theorem C9_echo_round_trip_witness :
    ∃ l1 l2, sync_test okWorld "example.com" "443" "/401" "Hello, world!" =
      l1 ++ Event.write "Hello, world!" :: Event.read "Hello, world!" :: l2 :=
  (C9_echo_round_trip okWorld "example.com" "443" "/401" "Hello, world!" 8443
    rfl rfl rfl rfl rfl rfl (fun _ => rfl)).1

/-- C10: in a run of either variant that succeeds through the read, the
received message is reported to the console only after the close
handshake completed: on close success the trace ends with the close event
followed by the message line, and on close failure it ends with the close
event followed by the single catch-handler error line, the message line
never being produced. -/
theorem C10_close_before_message_report (w : World)
    (host port path text msg : String) (p : Nat)
    (h1 : w.resolveResult = .ok ()) (h2 : w.connectResult = .ok p)
    (h3 : w.sniOk = true) (h4 : w.tlsResult = .ok ())
    (h5 : w.wsOutcome.ec = none) (h6 : w.writeResult = .ok ())
    (h7 : w.readResult text = .ok msg) :
    ((w.closeResult = .ok () →
        sync_test w host port path text =
          reachTrace host port path sync_userAgent sync_tag p "Success"
              w.wsOutcome.response ++
            [.write text, .read msg, .close normalCloseCode,
             .println sync_tag [msg]]) ∧
     (∀ e, w.closeResult = .error e →
        sync_test w host port path text =
          reachTrace host port path sync_userAgent sync_tag p "Success"
              w.wsOutcome.response ++
            [.write text, .read msg, .close normalCloseCode,
             .println sync_tag ["Error: ", e]])) ∧
    ((w.closeResult = .ok () →
        async_test w host port path text =
          reachTrace host port path async_userAgent async_tag p "Success"
              w.wsOutcome.response ++
            [.write text, .read msg, .close normalCloseCode,
             .println async_tag [msg]]) ∧
     (∀ e, w.closeResult = .error e →
        async_test w host port path text =
          reachTrace host port path async_userAgent async_tag p "Success"
              w.wsOutcome.response ++
            [.write text, .read msg, .close normalCloseCode,
             .println async_tag ["Error: ", e]])) :=
  ⟨⟨fun h8 => run_success w host port path text sync_userAgent sync_tag
      () () () () p msg h1 h2 h3 h4 h5 h6 h7 h8,
    fun e h8 => run_close_error w host port path text sync_userAgent sync_tag
      () () () p msg e h1 h2 h3 h4 h5 h6 h7 h8⟩,
   ⟨fun h8 => run_success w host port path text async_userAgent async_tag
      () () () () p msg h1 h2 h3 h4 h5 h6 h7 h8,
    fun e h8 => run_close_error w host port path text async_userAgent async_tag
      () () () p msg e h1 h2 h3 h4 h5 h6 h7 h8⟩⟩

/-- Witness for C10: a concrete run whose close fails ends with the error
line and never reports the successfully read message. -/
theorem C10_close_before_message_report_witness :
    sync_test closeFailWorld "example.com" "443" "/401" "Hello, world!" =
      reachTrace "example.com" "443" "/401" sync_userAgent sync_tag 8443
          "Success" "HTTP/1.1 101 Switching Protocols" ++
        [.write "Hello, world!", .read "Hello, world!",
         .close normalCloseCode,
         .println sync_tag ["Error: ", "stream truncated"]] :=
  ((C10_close_before_message_report closeFailWorld "example.com" "443" "/401"
    "Hello, world!" "Hello, world!" 8443
    rfl rfl rfl rfl rfl rfl rfl).1).2 "stream truncated" rfl

end WebSocketClient
